import Mathlib

/-!
Verification of the control-plane bookkeeping logic of the GNS3 server:
the Dynamips Frame Relay switch node
(`gns3server/modules/dynamips/nodes/frame_relay_switch.py`) and the
VirtualBox module (`gns3server/modules/virtualbox/__init__.py`).

Python strings are embedded as `List Char`, Python dicts as association
lists with unique keys (insertion order preserved, as in CPython), and the
external hypervisor control channel as a boolean oracle telling whether the
`send` call succeeded.  Operations that can raise return `Except DynErr`.
-/

/-- Error kinds raised by the embedded operations, mirroring the
`DynamipsError` messages of the source (`exhausted` = "Maximum number of
instances reached", `portNotFree` = "Port isn't free", `portNotAllocated` =
"Port is not allocated", `filterAlreadyBound` = "Port has already a filter
applied", `captureSetup` = "Could not create captures directory") together
with `circuitNotFound` for the `KeyError` escaping `del self._mapping[...]`
in `unmap_vc`, and `channelFailed` for an error reported by
`hypervisor.send`. -/
inductive DynErr where
  | exhausted
  | portNotFree
  | portNotAllocated
  | circuitNotFound
  | filterAlreadyBound
  | captureSetup
  | channelFailed
deriving DecidableEq

/-- Python `'"' + name + '"'` (frame_relay_switch.py line 54 and line 100). -/
def pyQuote (name : List Char) : List Char :=
  '"' :: (name ++ ['"'])

/-- Python `s.lower()` restricted to ASCII, as used on the
`data_link_type` argument (frame_relay_switch.py line 292). -/
def pyLower (s : List Char) : List Char :=
  s.map Char.toLower

/-- Python `s.startswith(pre)` (frame_relay_switch.py line 293). -/
def pyStartswith (pre s : List Char) : Bool :=
  decide (s.take pre.length = pre)

/-- Python `s[1:-1]`, used by the `name` getter to strip the surrounding
quotes (frame_relay_switch.py line 90). -/
def pySlice1m1 (s : List Char) : List Char :=
  (s.drop 1).dropLast

/-- Python `k in d` for a dict embedded as an association list. -/
def dictContains {α β : Type} [DecidableEq α] (d : List (α × β)) (k : α) : Bool :=
  match d with
  | [] => false
  | (k1, _) :: rest => if k1 = k then true else dictContains rest k

/-- Python `d[k]` lookup (first binding wins; bindings are unique in a
real dict). -/
def dictGet {α β : Type} [DecidableEq α] (d : List (α × β)) (k : α) : Option β :=
  match d with
  | [] => none
  | (k1, v) :: rest => if k1 = k then some v else dictGet rest k

/-- Python `d[k] = v`: replaces the existing binding in place, or appends
a new binding at the end (CPython insertion order). -/
def dictInsert {α β : Type} [DecidableEq α] (d : List (α × β)) (k : α) (v : β) :
    List (α × β) :=
  match d with
  | [] => [(k, v)]
  | (k1, v1) :: rest =>
      if k1 = k then (k, v) :: rest else (k1, v1) :: dictInsert rest k v

/-- Python `del d[k]`: removes the (first, hence only) binding for `k`. -/
def dictErase {α β : Type} [DecidableEq α] (d : List (α × β)) (k : α) :
    List (α × β) :=
  match d with
  | [] => []
  | (k1, v1) :: rest =>
      if k1 = k then rest else (k1, v1) :: dictErase rest k

/-- All bindings of the association list whose key is `k`. -/
def entriesFor {α β : Type} [DecidableEq α] (d : List (α × β)) (k : α) :
    List (α × β) :=
  d.filter (fun kv => decide (kv.1 = k))

/-- Keys are pairwise distinct: the invariant every Python dict enjoys. -/
def dictKeysNodup {α β : Type} (d : List (α × β)) : Prop :=
  (d.map Prod.fst).Nodup

instance {α β : Type} (d : List (α × β)) [DecidableEq α] :
    Decidable (dictKeysNodup d) := by
  unfold dictKeysNodup; infer_instance

/-- Modelled from the spec: the Nio filter capability consumed from the
externally owned Nio object (its class is not part of the surveyed
sources).  The spec lists `bindFilter(direction, filterName)`,
`setupFilter(direction, filterArgs)`, `unbindFilter(direction)` and a
readable `(inputFilter, outputFilter)` pair used to detect an already
active capture; a bind or unbind on the "both" direction acts on the
input and the output slots at once. -/
structure Nio where
  inputFilter : Option (List Char)
  outputFilter : Option (List Char)
  inputFilterArgs : Option (List Char)
  outputFilterArgs : Option (List Char)
deriving DecidableEq

/-- A Nio with no capture filter bound. -/
def emptyNio : Nio :=
  { inputFilter := none, outputFilter := none,
    inputFilterArgs := none, outputFilterArgs := none }

/-- Modelled from the spec: `bindFilter("both", name)` sets the filter
name on both directions. -/
def bindFilterBoth (nio : Nio) (name : List Char) : Nio :=
  { nio with inputFilter := some name, outputFilter := some name }

/-- Modelled from the spec: `setupFilter("both", args)` sets the filter
arguments on both directions. -/
def setupFilterBoth (nio : Nio) (args : List Char) : Nio :=
  { nio with inputFilterArgs := some args, outputFilterArgs := some args }

/-- Modelled from the spec: `unbindFilter("both")` clears the filter on
both directions (unconditionally, no error when none is bound). -/
def unbindFilterBoth (_nio : Nio) : Nio :=
  emptyNio

/-- Local state of one `FrameRelaySwitch` object: `id` is `self._id`,
`storedName` is `self._name` (kept with its surrounding quotes, line 54),
`nios` is `self._nios` (port number to bound Nio, line 61) and `mapping`
is `self._mapping` (ingress (port, dlci) to egress (port, dlci),
line 62). -/
structure Switch where
  id : Nat
  storedName : List Char
  nios : List (Nat × Nio)
  mapping : List ((Nat × Nat) × (Nat × Nat))
deriving DecidableEq

/-- The instance-identifier scan of `FrameRelaySwitch.__init__`
(lines 42-48): the first identifier in 1..4096 not already in
`_instances`, `none` when the loop finds nothing (`_id` stays 0). -/
def allocateId (instances : List Nat) : Option Nat :=
  (List.range' 1 4096).find? (fun i => decide (i ∉ instances))

/-- Embeds `FrameRelaySwitch.__init__` (lines 40-62): allocates an identifier
(raising "Maximum number of instances reached" when the pool is
exhausted), appends it to `_instances`, quotes the name and starts with
empty `_nios` and `_mapping`.  Returns the new switch together with the
updated `_instances` list. -/
def frswConstruct (instances : List Nat) (name : List Char) :
    Except DynErr (Switch × List Nat) :=
  match allocateId instances with
  | some i =>
      .ok ({ id := i, storedName := pyQuote name, nios := [], mapping := [] },
           instances ++ [i])
  | none => .error .exhausted

/-- The `name` property getter (lines 82-90): strips the stored quotes. -/
def swName (sw : Switch) : List Char :=
  pySlice1m1 sw.storedName

/-- The `name` setter (lines 92-108): quotes the new name, sends
`frsw rename`, and only then replaces `self._name`.  `send` tells whether
the hypervisor call succeeded. -/
def renameSw (send : Bool) (sw : Switch) (newName : List Char) :
    Except DynErr Switch :=
  if send = false then .error .channelFailed
  else .ok { sw with storedName := pyQuote newName }

/-- Embeds `FrameRelaySwitch.delete` (lines 149-159): sends `frsw delete`, then
removes the switch from `hypervisor.devices` and its identifier from
`_instances`.  Returns the updated (instances, devices) pair. -/
def deleteSw (send : Bool) (instances devices : List Nat) (sw : Switch) :
    Except DynErr (List Nat × List Nat) :=
  if send = false then .error .channelFailed
  else .ok (instances.erase sw.id, devices.erase sw.id)

/-- Embeds `FrameRelaySwitch.has_port` (lines 161-170). -/
def hasPort (sw : Switch) (port : Nat) : Bool :=
  dictContains sw.nios port

/-- Embeds `FrameRelaySwitch.add_nio` (lines 172-188): raises the "port is not free" error
when the port is bound, otherwise records the binding.  No hypervisor
command is sent. -/
def addNio (sw : Switch) (nio : Nio) (port : Nat) : Except DynErr Switch :=
  if dictContains sw.nios port then .error .portNotFree
  else .ok { sw with nios := dictInsert sw.nios port nio }

/-- Embeds `FrameRelaySwitch.remove_nio` (lines 190-209): raises "Port is not
allocated" when the port is unbound, otherwise deletes the binding and
returns the Nio that was bound. -/
def removeNio (sw : Switch) (port : Nat) : Except DynErr (Nio × Switch) :=
  match dictGet sw.nios port with
  | none => .error .portNotAllocated
  | some nio => .ok (nio, { sw with nios := dictErase sw.nios port })

/-- Embeds `FrameRelaySwitch.map_vc` (lines 211-243): checks both ports are
allocated, sends `frsw create_vc`, and only then stores the
(port1, dlci1) to (port2, dlci2) entry (dict assignment, so an existing
entry is overwritten). -/
def mapVc (send : Bool) (sw : Switch) (port1 dlci1 port2 dlci2 : Nat) :
    Except DynErr Switch :=
  if dictContains sw.nios port1 = false then .error .portNotAllocated
  else if dictContains sw.nios port2 = false then .error .portNotAllocated
  else if send = false then .error .channelFailed
  else .ok { sw with
    mapping := dictInsert sw.mapping (port1, dlci1) (port2, dlci2) }

/-- Embeds `FrameRelaySwitch.unmap_vc` (lines 245-276): checks both ports are
allocated, sends `frsw delete_vc`, and only then executes
`del self._mapping[(port1, dlci1)]` — which raises a `KeyError`
(`circuitNotFound`) when that ingress key has no entry. -/
def unmapVc (send : Bool) (sw : Switch) (port1 dlci1 port2 dlci2 : Nat) :
    Except DynErr Switch :=
  if dictContains sw.nios port1 = false then .error .portNotAllocated
  else if dictContains sw.nios port2 = false then .error .portNotAllocated
  else if send = false then .error .channelFailed
  else if dictContains sw.mapping (port1, dlci1) = false then
    .error .circuitNotFound
  else .ok { sw with mapping := dictErase sw.mapping (port1, dlci1) }

/-- The `data_link_type` normalization inside `start_capture`
(lines 292-294): the whole string is lowercased, then a leading "dlt_"
is dropped. -/
def normalizeDlt (dlt : List Char) : List Char :=
  let d := pyLower dlt
  if pyStartswith ("dlt_".data) d then d.drop 4 else d

/-- Embeds `FrameRelaySwitch.start_capture` (lines 278-311): port must be
allocated; the link type is normalized; a capture is refused when the Nio
already has filters on both directions; the captures directory is created
(`mkdir` tells whether the filesystem call succeeded, a pre-existing
directory counting as success); then a "capture" filter is bound on the
"both" direction and configured with the normalized link type and the
output file. -/
def startCapture (mkdir : Bool) (sw : Switch) (port : Nat)
    (outputFile dlt : List Char) : Except DynErr Switch :=
  match dictGet sw.nios port with
  | none => .error .portNotAllocated
  | some nio =>
    let tag := normalizeDlt dlt
    if nio.inputFilter.isSome && nio.outputFilter.isSome then
      .error .filterAlreadyBound
    else if mkdir = false then .error .captureSetup
    else
      let nio1 := setupFilterBoth (bindFilterBoth nio ("capture".data))
        (tag ++ ' ' :: outputFile)
      .ok { sw with nios := dictInsert sw.nios port nio1 }

/-- Embeds `FrameRelaySwitch.stop_capture` (lines 313-327): port must be
allocated; the "both" filter is unbound unconditionally. -/
def stopCapture (sw : Switch) (port : Nat) : Except DynErr Switch :=
  match dictGet sw.nios port with
  | none => .error .portNotAllocated
  | some nio =>
      .ok { sw with nios := dictInsert sw.nios port (unbindFilterBoth nio) }

/-- What the caller's state is after an operation: the new switch when
the call succeeded, the unchanged old switch when it raised. -/
def commitSw (sw : Switch) (r : Except DynErr Switch) : Switch :=
  match r with
  | .ok sw1 => sw1
  | .error _ => sw

/-- One event of a `FrameRelaySwitch` construction / deletion history. -/
inductive FrswOp where
  | create
  | delete (i : Nat)

/-- Effect of one event on the class-level `_instances` list: a
construction appends the allocated identifier (lines 44-48; nothing is
appended when the pool is exhausted), a deletion removes the switch's
identifier (line 159). -/
def frswStep (s : List Nat) : FrswOp → List Nat
  | .create =>
      match allocateId s with
      | some i => s ++ [i]
      | none => s
  | .delete i => s.erase i

/-- The `_instances` list reached from the initial empty pool by a
history of constructions and deletions. -/
def runFrsw (ops : List FrswOp) : List Nat :=
  ops.foldl frswStep []

/-- The UDP-port bookkeeping of the `VirtualBox` module: the configured
range (`_udp_start_port_range`, `_udp_end_port_range`, virtualbox
`__init__.py` lines 68-69) and the `_allocated_udp_ports` list
(line 67, initially empty). -/
structure VBoxPorts where
  udpStart : Nat
  udpEnd : Nat
  allocatedUdpPorts : List Nat
deriving DecidableEq

/-- The module right after `VirtualBox.__init__`: configured range, no
allocated port. -/
def initVBoxPorts (a b : Nat) : VBoxPorts :=
  { udpStart := a, udpEnd := b, allocatedUdpPorts := [] }

/-- One event touching `_allocated_udp_ports`: `allocUdp p` is a
successful `virtualbox.allocate_udp_port` request in which the external
probe `find_unused_port` returned `p` (lines 415-425); `deleteNio lport
isUdp` is a `virtualbox.delete_nio` request whose unbound Nio had local
port `lport` and was (or was not) a UDP Nio (lines 517-521). -/
inductive VBoxOp where
  | allocUdp (p : Nat)
  | deleteNio (lport : Nat) (isUdp : Bool)

/-- Effect of one event: an allocation appends the returned port
(line 425); `delete_nio` removes `nio.lport` from the list when the Nio
is a UDP Nio and the port is currently in the list (lines 520-521). -/
def vboxStep (s : VBoxPorts) : VBoxOp → VBoxPorts
  | .allocUdp p =>
      { s with allocatedUdpPorts := s.allocatedUdpPorts ++ [p] }
  | .deleteNio lport isUdp =>
      if isUdp && s.allocatedUdpPorts.contains lport then
        { s with allocatedUdpPorts := s.allocatedUdpPorts.erase lport }
      else s

/-- The assumption on the external probe, event by event: a port returned
by `find_unused_port` lies in the configured range and is not in the
`ignore_ports` list (`_allocated_udp_ports`) passed to it. -/
def vboxProbeOk (s : VBoxPorts) : VBoxOp → Bool
  | .allocUdp p =>
      decide (s.udpStart ≤ p) && decide (p ≤ s.udpEnd)
        && !(s.allocatedUdpPorts.contains p)
  | .deleteNio _ _ => true

/-- A history every event of which respects the probe assumption in the
state it executes in. -/
def vboxConformant (s : VBoxPorts) : List VBoxOp → Bool
  | [] => true
  | op :: ops => vboxProbeOk s op && vboxConformant (vboxStep s op) ops

/-- The module state reached from `s` by a history of events. -/
def runVBox (s : VBoxPorts) (ops : List VBoxOp) : VBoxPorts :=
  ops.foldl vboxStep s

/-- Local state of the `VirtualBox` module touched by the
`virtualbox.settings` route: directories, both port ranges, the working
directories of the registered VM instances (id to directory), and the
allocated UDP ports. -/
structure VBoxModule where
  projectsDir : List Char
  workingDir : List Char
  consoleStart : Nat
  consoleEnd : Nat
  udpStart : Nat
  udpEnd : Nat
  vmWorkingDirs : List (Nat × List Char)
  allocatedUdpPorts : List Nat
deriving DecidableEq

/-- A `virtualbox.settings` JSON request: each optional parameter is
`none` when the key is absent.  The console and UDP ranges are applied
only when both their keys are present, hence one optional pair each. -/
structure SettingsRequest where
  workingDir : Option (List Char)
  projectName : List Char
  consoleRange : Option (Nat × Nat)
  udpRange : Option (Nat × Nat)
deriving DecidableEq

/-- Python `os.path.join(a, b)` for non-empty relative second parts. -/
def pathJoin (a b : List Char) : List Char :=
  a ++ '/' :: b

/-- The early-return condition of `VirtualBox.settings` (lines 149-159):
the request has no `working_dir` key (remote server case), the chained
comparison `self._projects_dir != self._working_dir != new_working_dir`
holds, the new directory does not exist yet and the `shutil.move` raised
`OSError`.  `isdir` and `moveOk` report the two filesystem probes. -/
def settingsMoveFailed (isdir moveOk : Bool) (m : VBoxModule)
    (r : SettingsRequest) (newWorkingDir : List Char) : Bool :=
  decide (r.workingDir = none) && decide (m.projectsDir ≠ m.workingDir)
    && decide (m.workingDir ≠ newWorkingDir) && !isdir && !moveOk

/-- Embeds `VirtualBox.settings` (lines 125-176): a `None` request is a
parameter error leaving the module untouched; otherwise the new working
directory is the request's one or `projects_dir/project_name`; a failed
`shutil.move` returns early with nothing updated; else the working
directory (and every VM instance's working directory,
`working_dir/vbox/vm-<id>`) is updated when changed, then the console
range and the UDP range are updated when both keys of the pair are
present.  `_allocated_udp_ports` is never touched. -/
def vboxSettings (isdir moveOk : Bool) (m : VBoxModule)
    (req : Option SettingsRequest) : VBoxModule :=
  match req with
  | none => m
  | some r =>
    let newWorkingDir :=
      match r.workingDir with
      | some w => w
      | none => pathJoin m.projectsDir r.projectName
    if settingsMoveFailed isdir moveOk m r newWorkingDir then m
    else
      let m1 :=
        if m.workingDir ≠ newWorkingDir then
          { m with workingDir := newWorkingDir,
                   vmWorkingDirs := m.vmWorkingDirs.map (fun kv =>
                     (kv.1, pathJoin (pathJoin newWorkingDir ("vbox".data))
                       (("vm-".data) ++ (Nat.repr kv.1).data))) }
        else m
      let m2 :=
        match r.consoleRange with
        | some (a, b) => { m1 with consoleStart := a, consoleEnd := b }
        | none => m1
      match r.udpRange with
      | some (a, b) => { m2 with udpStart := a, udpEnd := b }
      | none => m2

/-! ### Association-list lemmas -/

/-- Membership test agrees with lookup. -/
theorem dictContains_eq_isSome {α β : Type} [DecidableEq α]
    (d : List (α × β)) (k : α) : dictContains d k = (dictGet d k).isSome := by
  induction d with
  | nil => rfl
  | cons kv rest ih =>
      obtain ⟨k1, v1⟩ := kv
      by_cases h : k1 = k <;> simp [dictContains, dictGet, h, ih]

/-- A key that is no key of the list looks up to nothing. -/
theorem dictGet_not_key {α β : Type} [DecidableEq α]
    (d : List (α × β)) (k : α) (h : k ∉ d.map Prod.fst) : dictGet d k = none := by
  induction d with
  | nil => rfl
  | cons kv rest ih =>
      obtain ⟨k1, v1⟩ := kv
      simp only [List.map_cons, List.mem_cons] at h
      push_neg at h
      simp [dictGet, Ne.symm h.1, ih h.2]

/-- A key that is no key of the list selects no entry. -/
theorem entriesFor_not_key {α β : Type} [DecidableEq α]
    (d : List (α × β)) (k : α) (h : k ∉ d.map Prod.fst) : entriesFor d k = [] := by
  induction d with
  | nil => rfl
  | cons kv rest ih =>
      obtain ⟨k1, v1⟩ := kv
      simp only [List.map_cons, List.mem_cons] at h
      push_neg at h
      have hr := ih h.2
      simp only [entriesFor, List.filter_cons] at hr ⊢
      rw [if_neg (by simpa using Ne.symm h.1)]
      exact hr

/-- The keys after a write are the old keys plus the written key. -/
theorem mem_keys_dictInsert {α β : Type} [DecidableEq α]
    (d : List (α × β)) (k a : α) (v : β) :
    a ∈ (dictInsert d k v).map Prod.fst ↔ a = k ∨ a ∈ d.map Prod.fst := by
  induction d with
  | nil => simp [dictInsert]
  | cons kv rest ih =>
      obtain ⟨k1, v1⟩ := kv
      by_cases h : k1 = k
      · subst h
        simp [dictInsert]
      · simp only [dictInsert, if_neg h, List.map_cons, List.mem_cons, ih]
        tauto

/-- Looking up the key just written returns the value just written. -/
theorem dictGet_insert_self {α β : Type} [DecidableEq α]
    (d : List (α × β)) (k : α) (v : β) : dictGet (dictInsert d k v) k = some v := by
  induction d with
  | nil => simp [dictInsert, dictGet]
  | cons kv rest ih =>
      obtain ⟨k1, v1⟩ := kv
      by_cases h : k1 = k <;> simp [dictInsert, dictGet, h, ih]

/-- Writing a binding keeps the keys pairwise distinct. -/
theorem dictKeysNodup_insert {α β : Type} [DecidableEq α]
    (d : List (α × β)) (k : α) (v : β) (h : dictKeysNodup d) :
    dictKeysNodup (dictInsert d k v) := by
  induction d with
  | nil => simp [dictInsert, dictKeysNodup]
  | cons kv rest ih =>
      obtain ⟨k1, v1⟩ := kv
      unfold dictKeysNodup at h ⊢
      simp only [List.map_cons, List.nodup_cons] at h
      by_cases hk : k1 = k
      · subst hk
        simpa [dictInsert] using h
      · have hrest := ih h.2
        unfold dictKeysNodup at hrest
        simp only [dictInsert, if_neg hk, List.map_cons, List.nodup_cons]
        refine ⟨?_, hrest⟩
        rw [mem_keys_dictInsert]
        push_neg
        exact ⟨hk, h.1⟩

/-- Deleting a key removes it for good when keys are pairwise distinct. -/
theorem dictGet_erase_self {α β : Type} [DecidableEq α]
    (d : List (α × β)) (k : α) (h : dictKeysNodup d) :
    dictGet (dictErase d k) k = none := by
  induction d with
  | nil => rfl
  | cons kv rest ih =>
      obtain ⟨k1, v1⟩ := kv
      unfold dictKeysNodup at h
      simp only [List.map_cons, List.nodup_cons] at h
      by_cases hk : k1 = k
      · subst hk
        simp only [dictErase, if_pos rfl]
        exact dictGet_not_key rest k1 h.1
      · simp [dictErase, hk, dictGet, ih h.2]

/-- After an overwrite the table holds exactly one entry for the key. -/
theorem entriesFor_insert {α β : Type} [DecidableEq α]
    (d : List (α × β)) (k : α) (v : β) (h : dictKeysNodup d) :
    entriesFor (dictInsert d k v) k = [(k, v)] := by
  induction d with
  | nil => simp [dictInsert, entriesFor]
  | cons kv rest ih =>
      obtain ⟨k1, v1⟩ := kv
      unfold dictKeysNodup at h
      simp only [List.map_cons, List.nodup_cons] at h
      by_cases hk : k1 = k
      · subst hk
        have hrest := entriesFor_not_key rest k1 h.1
        simp only [entriesFor] at hrest
        simp [dictInsert, entriesFor, List.filter_cons, hrest]
      · have := ih h.2
        simp only [entriesFor] at this
        simp [dictInsert, if_neg hk, entriesFor, List.filter_cons, hk, this]

/-! ### Identifier-pool lemmas -/

/-- The element `find?` returns over an ascending unit range is minimal
among the elements of the range satisfying the predicate. -/
theorem find?_range'_min (p : Nat → Bool) :
    ∀ (n s a : Nat), (List.range' s n).find? p = some a →
      ∀ j, s ≤ j → j < s + n → p j = true → a ≤ j := by
  intro n
  induction n with
  | zero => intro s a h; simp at h
  | succ n ih =>
      intro s a h j hsj hjn hpj
      rw [List.range'_succ] at h
      by_cases hps : p s = true
      · rw [List.find?_cons_of_pos _ hps] at h
        cases h
        exact hsj
      · rw [List.find?_cons_of_neg _ hps] at h
        rcases Nat.eq_or_lt_of_le hsj with heq | hlt
        · subst heq
          exact absurd hpj hps
        · exact ih (s + 1) a h j hlt (by omega) hpj

/-- A successful identifier allocation returns the smallest free
identifier of 1..4096 and that identifier is indeed free. -/
theorem allocateId_some (instances : List Nat) (i : Nat)
    (h : allocateId instances = some i) :
    1 ≤ i ∧ i ≤ 4096 ∧ i ∉ instances ∧
      ∀ j, 1 ≤ j → j ≤ 4096 → j ∉ instances → i ≤ j := by
  have hmem := List.mem_of_find?_eq_some h
  rw [List.mem_range'_1] at hmem
  have hfree : i ∉ instances := by
    have := List.find?_some h
    simpa using this
  refine ⟨hmem.1, by omega, hfree, ?_⟩
  intro j h1 h2 hj
  exact find?_range'_min _ 4096 1 i h j h1 (by omega) (by simpa using hj)

/-- Allocation fails exactly when every identifier of 1..4096 is held. -/
theorem allocateId_none (instances : List Nat) :
    allocateId instances = none ↔ ∀ j, 1 ≤ j → j ≤ 4096 → j ∈ instances := by
  unfold allocateId
  rw [List.find?_eq_none]
  constructor
  · intro h j h1 h2
    have := h j (by rw [List.mem_range'_1]; omega)
    simpa using this
  · intro h x hx
    rw [List.mem_range'_1] at hx
    simpa using h x hx.1 (by omega)

/-- Every `_instances` list reachable from a state with pairwise-distinct
identifiers keeps its identifiers pairwise distinct. -/
theorem runFrsw_nodup_from (ops : List FrswOp) :
    ∀ (s : List Nat), s.Nodup → (List.foldl frswStep s ops).Nodup := by
  induction ops with
  | nil => intro s hs; simpa using hs
  | cons op ops ih =>
      intro s hs
      rw [List.foldl_cons]
      apply ih
      match op with
      | .delete i => exact hs.erase i
      | .create =>
          show (frswStep s .create).Nodup
          unfold frswStep
          cases halloc : allocateId s with
          | none => exact hs
          | some i =>
              have hfree := (allocateId_some s i halloc).2.2.1
              simp [List.nodup_append, hs, hfree]

/-- Construction fails (with the exhaustion error) exactly when the
identifier scan finds nothing. -/
theorem frswConstruct_error_iff (instances : List Nat) (name : List Char) :
    frswConstruct instances name = .error .exhausted ↔
      allocateId instances = none := by
  unfold frswConstruct
  cases h : allocateId instances <;> simp

/-- C1: over every history of FrameRelaySwitch constructions and
deletions, the live identifiers are pairwise distinct; a successful
construction is assigned the smallest identifier of 1..4096 not held by a
live switch (so a released identifier can be handed out again, lowest
available first) and that identifier joins the pool; construction fails
with the exhaustion error exactly when all 4096 identifiers are held. -/
theorem frsw_identifier_pool (ops : List FrswOp) (name : List Char) :
    (runFrsw ops).Nodup ∧
    (∀ sw s1, frswConstruct (runFrsw ops) name = .ok (sw, s1) →
        1 ≤ sw.id ∧ sw.id ≤ 4096 ∧ sw.id ∉ runFrsw ops ∧
        s1 = runFrsw ops ++ [sw.id] ∧
        ∀ j, 1 ≤ j → j ≤ 4096 → j ∉ runFrsw ops → sw.id ≤ j) ∧
    (frswConstruct (runFrsw ops) name = .error .exhausted ↔
        ∀ j, 1 ≤ j → j ≤ 4096 → j ∈ runFrsw ops) := by
  refine ⟨runFrsw_nodup_from ops [] (by simp), ?_, ?_⟩
  · intro sw s1 h
    unfold frswConstruct at h
    cases halloc : allocateId (runFrsw ops) with
    | none => rw [halloc] at h; cases h
    | some i =>
        rw [halloc] at h
        simp only [Except.ok.injEq, Prod.mk.injEq] at h
        obtain ⟨hsw, hs1⟩ := h
        obtain ⟨h1, h2, h3, h4⟩ := allocateId_some (runFrsw ops) i halloc
        subst hsw
        exact ⟨h1, h2, h3, hs1.symm, h4⟩
  · rw [frswConstruct_error_iff]
    exact allocateId_none (runFrsw ops)

/-- C2: when the hypervisor send fails, none of the mutating switch
operations (rename, map_vc, unmap_vc, delete) changes any local state:
the caller's switch (stored name, Nio bindings, circuit mapping) is
exactly what it was, and delete leaves the registry and the identifier
pool untouched by raising before mutating them. -/
theorem channel_error_no_mutation (sw : Switch) (newName : List Char)
    (p1 d1 p2 d2 : Nat) (instances devices : List Nat) :
    commitSw sw (renameSw false sw newName) = sw ∧
    commitSw sw (mapVc false sw p1 d1 p2 d2) = sw ∧
    commitSw sw (unmapVc false sw p1 d1 p2 d2) = sw ∧
    deleteSw false instances devices sw = .error .channelFailed := by
  refine ⟨rfl, ?_, ?_, rfl⟩
  · cases hc1 : dictContains sw.nios p1 <;>
      cases hc2 : dictContains sw.nios p2 <;>
      simp [mapVc, commitSw, hc1, hc2]
  · cases hc1 : dictContains sw.nios p1 <;>
      cases hc2 : dictContains sw.nios p2 <;>
      simp [unmapVc, commitSw, hc1, hc2]

/-- C10: the double quotes wrapped around the stored name are never
observable through the getter: right after construction with name `n`
the `name` property returns exactly `n`, and right after a successful
rename to `n2` it returns exactly `n2`. -/
theorem name_quotes_roundtrip (instances s1 : List Nat)
    (n n2 : List Char) (sw0 sw sw1 : Switch)
    (hc : frswConstruct instances n = .ok (sw0, s1))
    (hren : renameSw true sw n2 = .ok sw1) :
    swName sw0 = n ∧ swName sw1 = n2 := by
  have hq : ∀ m : List Char, pySlice1m1 (pyQuote m) = m := by
    intro m
    simp [pySlice1m1, pyQuote]
  constructor
  · unfold frswConstruct at hc
    cases halloc : allocateId instances with
    | none => rw [halloc] at hc; cases hc
    | some i =>
        rw [halloc] at hc
        simp only [Except.ok.injEq, Prod.mk.injEq] at hc
        obtain ⟨hsw, _⟩ := hc
        subst hsw
        simpa [swName] using hq n
  · unfold renameSw at hren
    rw [if_neg (by decide)] at hren
    simp only [Except.ok.injEq] at hren
    subst hren
    simpa [swName] using hq n2

/-- A concrete run of `name_quotes_roundtrip`: the switch built first in
an empty pool with name `SW1`, then renamed to `SW2`. -/
theorem name_quotes_roundtrip_concrete :
    swName { id := 1, storedName := pyQuote ("SW1".data), nios := [],
             mapping := [] } = "SW1".data ∧
    swName { id := 1, storedName := pyQuote ("SW2".data), nios := [],
             mapping := [] } = "SW2".data :=
  name_quotes_roundtrip [] [1] ("SW1".data) ("SW2".data)
    { id := 1, storedName := pyQuote ("SW1".data), nios := [], mapping := [] }
    { id := 1, storedName := pyQuote ("SW1".data), nios := [], mapping := [] }
    { id := 1, storedName := pyQuote ("SW2".data), nios := [], mapping := [] }
    (by rfl) (by rfl)

/-- Returns `true` exactly on a result that is not an error. -/
def exceptOk {ε α : Type} (r : Except ε α) : Bool :=
  match r with
  | .ok _ => true
  | .error _ => false

/-- A successful `map_vc` with both ports allocated stores exactly the
new entry on top of the old table. -/
theorem mapVc_ok (sw sw1 : Switch) (p1 d1 p2 d2 : Nat)
    (h1 : dictContains sw.nios p1 = true)
    (h2 : dictContains sw.nios p2 = true)
    (hmap : mapVc true sw p1 d1 p2 d2 = .ok sw1) :
    sw1 = { sw with mapping := dictInsert sw.mapping (p1, d1) (p2, d2) } := by
  unfold mapVc at hmap
  rw [h1, h2] at hmap
  simp at hmap
  exact hmap.symm

/-- C3: with both referenced ports allocated, `unmap_vc` on an ingress
key that has no entry fails with the circuit-not-found error; and after
`map_vc` of a four-tuple followed by `unmap_vc` of the same four-tuple
the table holds no entry for that ingress key. -/
theorem unmap_vc_missing_and_roundtrip (sw sw1 sw2 : Switch)
    (p1 d1 p2 d2 : Nat)
    (h1 : dictContains sw.nios p1 = true)
    (h2 : dictContains sw.nios p2 = true)
    (hn : dictKeysNodup sw.mapping)
    (habs : dictContains sw.mapping (p1, d1) = false)
    (hmap : mapVc true sw p1 d1 p2 d2 = .ok sw1)
    (hunmap : unmapVc true sw1 p1 d1 p2 d2 = .ok sw2) :
    unmapVc true sw p1 d1 p2 d2 = .error .circuitNotFound ∧
    dictGet sw2.mapping (p1, d1) = none := by
  have hsw1 := mapVc_ok sw sw1 p1 d1 p2 d2 h1 h2 hmap
  constructor
  · unfold unmapVc
    rw [h1, h2, habs]
    simp
  · subst hsw1
    unfold unmapVc at hunmap
    simp only [h1, h2] at hunmap
    rw [dictContains_eq_isSome, dictGet_insert_self] at hunmap
    simp at hunmap
    rw [← hunmap]
    exact dictGet_erase_self _ _ (dictKeysNodup_insert _ _ _ hn)

/-- A concrete three-port switch with nothing mapped and no capture. -/
def demoSw : Switch :=
  { id := 1, storedName := pyQuote ("SW1".data),
    nios := [(1, emptyNio), (2, emptyNio), (3, emptyNio)], mapping := [] }

/-- A concrete run of `unmap_vc_missing_and_roundtrip` on `demoSw` with
the four-tuple (1, 100, 2, 200). -/
theorem unmap_vc_missing_and_roundtrip_concrete :
    unmapVc true demoSw 1 100 2 200 = .error .circuitNotFound ∧
    dictGet demoSw.mapping (1, 100) = none :=
  unmap_vc_missing_and_roundtrip demoSw
    { demoSw with mapping := [((1, 100), (2, 200))] } demoSw 1 100 2 200
    (by decide) (by decide) (by decide) (by decide) (by rfl) (by rfl)

/-- C5: with the referenced ports allocated, `map_vc` on an ingress key
that already has an entry silently overwrites it: after mapping
(p, d) to (pb, db) and then (p, d) to (pc, dc), the table holds exactly
one entry for (p, d) and its value is (pc, dc). -/
theorem map_vc_overwrites (sw sw1 sw2 : Switch) (p d pb db pc dc : Nat)
    (hn : dictKeysNodup sw.mapping)
    (h1 : dictContains sw.nios p = true)
    (h2 : dictContains sw.nios pb = true)
    (h3 : dictContains sw.nios pc = true)
    (hm1 : mapVc true sw p d pb db = .ok sw1)
    (hm2 : mapVc true sw1 p d pc dc = .ok sw2) :
    entriesFor sw2.mapping (p, d) = [((p, d), (pc, dc))] := by
  have hsw1 := mapVc_ok sw sw1 p d pb db h1 h2 hm1
  subst hsw1
  have hsw2 := mapVc_ok
    { sw with mapping := dictInsert sw.mapping (p, d) (pb, db) }
    sw2 p d pc dc h1 h3 hm2
  subst hsw2
  exact entriesFor_insert _ _ _ (dictKeysNodup_insert _ _ _ hn)

/-- A concrete run of `map_vc_overwrites` on `demoSw`: mapping (1, 100)
to (2, 200) and then to (3, 300) leaves the single entry
(1, 100) to (3, 300). -/
theorem map_vc_overwrites_concrete :
    entriesFor ({ demoSw with
      mapping := [((1, 100), (3, 300))] } : Switch).mapping (1, 100) =
      [((1, 100), (3, 300))] :=
  map_vc_overwrites demoSw
    { demoSw with mapping := [((1, 100), (2, 200))] }
    { demoSw with mapping := [((1, 100), (3, 300))] }
    1 100 2 200 3 300
    (by decide) (by decide) (by decide) (by decide) (by rfl) (by rfl)

/-- C7: `add_nio` on a port that already has a bound Nio fails with the
port-occupied error (returning before any mutation, so the binding is
unchanged); `remove_nio` on a port with no bound Nio fails with the
port-not-allocated error; otherwise `remove_nio` returns exactly the Nio
that was bound and afterwards `has_port` on that port is false. -/
theorem nio_binding_contract (sw sw1 : Switch) (pa pb : Nat)
    (nio nioB rNio : Nio)
    (hn : dictKeysNodup sw.nios)
    (ha : dictGet sw.nios pa = some nioB)
    (hb : dictGet sw.nios pb = none)
    (hrm : removeNio sw pa = .ok (rNio, sw1)) :
    addNio sw nio pa = .error .portNotFree ∧
    removeNio sw pb = .error .portNotAllocated ∧
    rNio = nioB ∧ hasPort sw1 pa = false := by
  unfold removeNio at hrm
  rw [ha] at hrm
  simp at hrm
  refine ⟨?_, ?_, hrm.1.symm, ?_⟩
  · unfold addNio
    rw [dictContains_eq_isSome, ha]
    simp
  · unfold removeNio
    rw [hb]
  · rw [← hrm.2]
    unfold hasPort
    rw [dictContains_eq_isSome, dictGet_erase_self _ _ hn]
    rfl

/-- A concrete run of `nio_binding_contract` on `demoSw`: port 1 is
bound, port 5 is free. -/
theorem nio_binding_contract_concrete :
    addNio demoSw emptyNio 1 = .error .portNotFree ∧
    removeNio demoSw 5 = .error .portNotAllocated ∧
    emptyNio = emptyNio ∧
    hasPort { demoSw with nios := [(2, emptyNio), (3, emptyNio)] } 1 = false :=
  nio_binding_contract demoSw
    { demoSw with nios := [(2, emptyNio), (3, emptyNio)] } 1 5
    emptyNio emptyNio emptyNio
    (by decide) (by decide) (by decide) (by rfl)

/-- The Nio stored for a port by a successful `start_capture`: the
"capture" filter bound on both directions and configured with the
normalized link type and the output file. -/
def capturedNio (nio : Nio) (outputFile dlt : List Char) : Nio :=
  setupFilterBoth (bindFilterBoth nio ("capture".data))
    (normalizeDlt dlt ++ ' ' :: outputFile)

/-- A successful `start_capture` on a port whose Nio has no full filter
pair rewrites that port's Nio to the captured one. -/
theorem startCapture_ok (sw sw1 : Switch) (port : Nat) (nio : Nio)
    (outputFile dlt : List Char)
    (hg : dictGet sw.nios port = some nio)
    (hstart : startCapture true sw port outputFile dlt = .ok sw1) :
    sw1 = { sw with
      nios := dictInsert sw.nios port (capturedNio nio outputFile dlt) } := by
  unfold startCapture at hstart
  rw [hg] at hstart
  cases hf : nio.inputFilter.isSome && nio.outputFilter.isSome with
  | true => simp [hf] at hstart
  | false =>
      simp [hf] at hstart
      simp [capturedNio, ← hstart]

/-- C6: `start_capture` on a port with no bound Nio fails with the
port-not-allocated error; a second `start_capture` on the same port
without an intervening `stop_capture` (the Nio then has capture filters
on both directions) fails with the filter-already-bound error whatever
the filesystem does; and `stop_capture` on an allocated port never
fails, both right after a capture started and again when no filter is
active any more (idempotent stop). -/
theorem capture_contract (sw sw1 sw2 : Switch) (pa pb : Nat) (nioB : Nio)
    (f1 f2 d1 d2 : List Char) (mk2 : Bool)
    (ha : dictGet sw.nios pa = none)
    (hpb : dictGet sw.nios pb = some nioB)
    (hstart : startCapture true sw pb f1 d1 = .ok sw1)
    (hstop : stopCapture sw1 pb = .ok sw2) :
    startCapture true sw pa f1 d1 = .error .portNotAllocated ∧
    startCapture mk2 sw1 pb f2 d2 = .error .filterAlreadyBound ∧
    exceptOk (stopCapture sw1 pb) = true ∧
    exceptOk (stopCapture sw2 pb) = true := by
  have hsw1 := startCapture_ok sw sw1 pb nioB f1 d1 hpb hstart
  subst hsw1
  have hg1 : dictGet (dictInsert sw.nios pb (capturedNio nioB f1 d1)) pb =
      some (capturedNio nioB f1 d1) := dictGet_insert_self _ _ _
  refine ⟨?_, ?_, ?_, ?_⟩
  · unfold startCapture
    rw [ha]
  · unfold startCapture
    rw [hg1]
    simp [capturedNio, setupFilterBoth, bindFilterBoth]
  · unfold stopCapture
    rw [hg1]
    rfl
  · unfold stopCapture at hstop
    rw [hg1] at hstop
    simp at hstop
    rw [← hstop]
    unfold stopCapture
    rw [dictGet_insert_self]
    rfl

/-- A concrete run of `capture_contract` on `demoSw`: port 5 has no Nio,
port 2 has one; the capture is started with the default link type
`DLT_FRELAY`, and the second start is attempted with a failing
filesystem (it still reports the already-bound filter). -/
theorem capture_contract_concrete :
    startCapture true demoSw 5 ("/tmp/a.pcap".data) ("DLT_FRELAY".data) =
      .error .portNotAllocated ∧
    startCapture false
      { demoSw with nios := [(1, emptyNio),
          (2, capturedNio emptyNio ("/tmp/a.pcap".data) ("DLT_FRELAY".data)),
          (3, emptyNio)] } 2 ("/tmp/b.pcap".data) ("DLT_FRELAY".data) =
      .error .filterAlreadyBound ∧
    exceptOk (stopCapture
      { demoSw with nios := [(1, emptyNio),
          (2, capturedNio emptyNio ("/tmp/a.pcap".data) ("DLT_FRELAY".data)),
          (3, emptyNio)] } 2) = true ∧
    exceptOk (stopCapture demoSw 2) = true :=
  capture_contract demoSw
    { demoSw with nios := [(1, emptyNio),
        (2, capturedNio emptyNio ("/tmp/a.pcap".data) ("DLT_FRELAY".data)),
        (3, emptyNio)] }
    demoSw 5 2 emptyNio
    ("/tmp/a.pcap".data) ("/tmp/b.pcap".data)
    ("DLT_FRELAY".data) ("DLT_FRELAY".data) false
    (by rfl) (by rfl) (by rfl) (by rfl)

/-- The link-type normalization as the spec claims it: the input with a
case-insensitive leading "DLT_" prefix removed and otherwise unchanged. -/
def claimedDltTag (dlt : List Char) : List Char :=
  if pyStartswith ("dlt_".data) (pyLower dlt) then dlt.drop 4 else dlt

/-- C4 (counterexample): on the input `DLT_FRELAY` the code hands the
tag `frelay` to `setup_filter`, not the claimed `FRELAY`: the whole
input is lowercased before the prefix test, so the remainder is not
passed through unchanged. -/
theorem dlt_tag_not_case_preserved :
    normalizeDlt ("DLT_FRELAY".data) = "frelay".data ∧
    claimedDltTag ("DLT_FRELAY".data) = "FRELAY".data ∧
    normalizeDlt ("DLT_FRELAY".data) ≠ claimedDltTag ("DLT_FRELAY".data) ∧
    startCapture true demoSw 2 ("/tmp/a.pcap".data) ("DLT_FRELAY".data) =
      .ok { demoSw with nios := [(1, emptyNio),
        (2, capturedNio emptyNio ("/tmp/a.pcap".data) ("DLT_FRELAY".data)),
        (3, emptyNio)] } ∧
    (capturedNio emptyNio ("/tmp/a.pcap".data)
      ("DLT_FRELAY".data)).inputFilterArgs =
      some ("frelay /tmp/a.pcap".data) := by
  refine ⟨by decide, by decide, by decide, by rfl, by decide⟩

/-- C4 (amended): the link-type tag handed to `setup_filter` equals the
lowercased input with a leading (case-insensitively matched) "dlt_"
prefix removed; an input without the prefix is passed through
lowercased. -/
theorem dlt_tag_amended (dlt : List Char) :
    normalizeDlt dlt = pyLower (claimedDltTag dlt) := by
  unfold normalizeDlt claimedDltTag
  by_cases h : pyStartswith ("dlt_".data) (pyLower dlt) = true
  · rw [if_pos h, if_pos h]
    simp [pyLower]
  · rw [if_neg h, if_neg h]


/-! ### VirtualBox UDP-port lemmas -/

/-- Unfolding of `vboxStep` on an allocation event. -/
theorem vboxStep_allocUdp (s : VBoxPorts) (p : Nat) :
    vboxStep s (.allocUdp p) =
      { s with allocatedUdpPorts := s.allocatedUdpPorts ++ [p] } := rfl

/-- Unfolding of `vboxStep` on a Nio deletion event. -/
theorem vboxStep_deleteNio (s : VBoxPorts) (lport : Nat) (isUdp : Bool) :
    vboxStep s (.deleteNio lport isUdp) =
      if isUdp && s.allocatedUdpPorts.contains lport then
        { s with allocatedUdpPorts := s.allocatedUdpPorts.erase lport }
      else s := rfl

/-- Along a probe-conformant history, the allocated UDP ports stay
pairwise distinct. -/
theorem runVBox_nodup_from (ops : List VBoxOp) :
    ∀ (s : VBoxPorts), vboxConformant s ops = true →
      s.allocatedUdpPorts.Nodup → (runVBox s ops).allocatedUdpPorts.Nodup := by
  induction ops with
  | nil => intro s _ hs; simpa [runVBox] using hs
  | cons op ops ih =>
      intro s hconf hs
      unfold vboxConformant at hconf
      rw [Bool.and_eq_true] at hconf
      have hstep : (vboxStep s op).allocatedUdpPorts.Nodup := by
        cases op with
        | allocUdp p =>
            have hp := hconf.1
            simp only [vboxProbeOk, Bool.and_eq_true, Bool.not_eq_true'] at hp
            have hnot : p ∉ s.allocatedUdpPorts := by simpa using hp.2
            rw [vboxStep_allocUdp]
            simp [List.nodup_append, hs, hnot]
        | deleteNio lport isUdp =>
            rw [vboxStep_deleteNio]
            by_cases hc : (isUdp && s.allocatedUdpPorts.contains lport) = true
            · rw [if_pos hc]
              exact hs.erase lport
            · rw [if_neg hc]
              exact hs
      have hrun := ih (vboxStep s op) hconf.2 hstep
      simpa [runVBox, List.foldl_cons] using hrun

/-- C8: under the probe assumption (every port `find_unused_port`
returns lies in the configured range and avoids the passed
`ignore_ports`), any history of UDP-port allocations and Nio deletions
starting from a fresh module keeps `_allocated_udp_ports` pairwise
distinct, and a `delete_nio` of a UDP Nio with local port `lp` leaves a
state in which `lp` is no longer allocated. -/
theorem vbox_udp_ports_distinct (a b lp : Nat) (ops : List VBoxOp)
    (h : vboxConformant (initVBoxPorts a b) ops = true) :
    (runVBox (initVBoxPorts a b) ops).allocatedUdpPorts.Nodup ∧
    lp ∉ (runVBox (initVBoxPorts a b)
      (ops ++ [VBoxOp.deleteNio lp true])).allocatedUdpPorts := by
  have hnd : (runVBox (initVBoxPorts a b) ops).allocatedUdpPorts.Nodup :=
    runVBox_nodup_from ops (initVBoxPorts a b) h (by simp [initVBoxPorts])
  refine ⟨hnd, ?_⟩
  unfold runVBox at hnd ⊢
  rw [List.foldl_append, List.foldl_cons, List.foldl_nil, vboxStep_deleteNio]
  by_cases hc : (true && (List.foldl vboxStep (initVBoxPorts a b)
      ops).allocatedUdpPorts.contains lp) = true
  · rw [if_pos hc]
    exact hnd.not_mem_erase
  · rw [if_neg hc]
    simpa using hc

/-- A concrete run of `vbox_udp_ports_distinct` over the range
[35001, 35003]: allocate 35001 and 35002, tear down the UDP Nio holding
35002, then tear down the one holding 35001. -/
theorem vbox_udp_ports_distinct_concrete :
    (runVBox (initVBoxPorts 35001 35003)
      [VBoxOp.allocUdp 35001, VBoxOp.allocUdp 35002,
       VBoxOp.deleteNio 35002 true]).allocatedUdpPorts.Nodup ∧
    35001 ∉ (runVBox (initVBoxPorts 35001 35003)
      ([VBoxOp.allocUdp 35001, VBoxOp.allocUdp 35002,
        VBoxOp.deleteNio 35002 true] ++
       [VBoxOp.deleteNio 35001 true])).allocatedUdpPorts :=
  vbox_udp_ports_distinct 35001 35003 35001
    [VBoxOp.allocUdp 35001, VBoxOp.allocUdp 35002,
     VBoxOp.deleteNio 35002 true] (by decide)

/-- The allocated UDP ports survive every `virtualbox.settings` request
untouched, along every path of the handler. -/
theorem vboxSettings_allocated (isdir moveOk : Bool) (m : VBoxModule)
    (req : Option SettingsRequest) :
    (vboxSettings isdir moveOk m req).allocatedUdpPorts =
      m.allocatedUdpPorts := by
  unfold vboxSettings
  rcases req with _ | r
  · rfl
  · dsimp only
    split
    · rfl
    · split <;> split <;> split <;> rfl

/-- C9: a settings request that changes the UDP port range (both
`udp_start_port_range` and `udp_end_port_range` present, and the request
not aborted by a failed working-directory move) installs the new range
and leaves the already-allocated UDP ports exactly as they were. -/
theorem settings_range_change_keeps_ports (isdir moveOk : Bool)
    (m : VBoxModule) (r : SettingsRequest) (a b : Nat)
    (hudp : r.udpRange = some (a, b))
    (hmf : settingsMoveFailed isdir moveOk m r
      (match r.workingDir with
       | some w => w
       | none => pathJoin m.projectsDir r.projectName) = false) :
    (vboxSettings isdir moveOk m (some r)).udpStart = a ∧
    (vboxSettings isdir moveOk m (some r)).udpEnd = b ∧
    (vboxSettings isdir moveOk m (some r)).allocatedUdpPorts =
      m.allocatedUdpPorts := by
  refine ⟨?_, ?_, vboxSettings_allocated isdir moveOk m (some r)⟩ <;>
  · unfold vboxSettings
    dsimp only
    rw [hmf, hudp]
    simp

/-- A concrete run of `settings_range_change_keeps_ports`: with port
35001 already allocated, moving the range from [35001, 35500] to
[45001, 45500] keeps 35001 allocated. -/
theorem settings_range_change_keeps_ports_concrete :
    (vboxSettings true true
      { projectsDir := "/projects".data, workingDir := "/projects".data,
        consoleStart := 3501, consoleEnd := 4000,
        udpStart := 35001, udpEnd := 35500,
        vmWorkingDirs := [], allocatedUdpPorts := [35001] }
      (some { workingDir := some ("/projects".data),
              projectName := "p1".data,
              consoleRange := none,
              udpRange := some (45001, 45500) })).udpStart = 45001 ∧
    (vboxSettings true true
      { projectsDir := "/projects".data, workingDir := "/projects".data,
        consoleStart := 3501, consoleEnd := 4000,
        udpStart := 35001, udpEnd := 35500,
        vmWorkingDirs := [], allocatedUdpPorts := [35001] }
      (some { workingDir := some ("/projects".data),
              projectName := "p1".data,
              consoleRange := none,
              udpRange := some (45001, 45500) })).udpEnd = 45500 ∧
    (vboxSettings true true
      { projectsDir := "/projects".data, workingDir := "/projects".data,
        consoleStart := 3501, consoleEnd := 4000,
        udpStart := 35001, udpEnd := 35500,
        vmWorkingDirs := [], allocatedUdpPorts := [35001] }
      (some { workingDir := some ("/projects".data),
              projectName := "p1".data,
              consoleRange := none,
              udpRange := some (45001, 45500) })).allocatedUdpPorts =
      [35001] :=
  settings_range_change_keeps_ports true true
    { projectsDir := "/projects".data, workingDir := "/projects".data,
      consoleStart := 3501, consoleEnd := 4000,
      udpStart := 35001, udpEnd := 35500,
      vmWorkingDirs := [], allocatedUdpPorts := [35001] }
    { workingDir := some ("/projects".data), projectName := "p1".data,
      consoleRange := none, udpRange := some (45001, 45500) }
    45001 45500 (by rfl) (by rfl)
